import Mathlib

/-!
# Verification of the callers-token-api scoring/validation pipeline

Shallow embedding of the market-cap enrichment core of the repository
(the enhanced integration script): the weighted price resolver
(`calculateWeightedPrice`), the trust scorer (`calculateTrustScore`),
the market-cap validator (`validateMarketCap`) and the report generator
(`generateMarketCapReport`).

Modelling conventions:
* JavaScript numbers are modelled as `ℚ` (all scoring arithmetic in the
  source is exact decimal arithmetic on values well inside double range).
* A JavaScript object field that a code path leaves unset reads back as
  `undefined`, which is falsy; unset boolean fields are modelled by the
  structure default `false`, unset numeric report fields by `0`, and a
  read of a property the record type never carries by `Option` `none`.
* Network calls are modelled by passing the data the call would return as
  an argument: the pool list is `Option (List RawPool)` (`none` for a
  missing/malformed response, mirroring `!pools || !Array.isArray(pools)`),
  and each average-price fallback lookup is an `Option ℚ` (`none` when the
  request fails or the response carries no usable price field).
* `reasons` strings are modelled by inductive tags, one constructor per
  distinct `push` site in the source; the numeric interpolations inside
  the message text carry no control-flow information.
-/

namespace CallersTokenApi

/-! ## Configuration constants (source lines 57–64) -/

def MAX_REASONABLE_PRICE : ℚ := 1000

def MIN_REASONABLE_PRICE : ℚ := 1 / 1000000

def MIN_LIQUIDITY_THRESHOLD : ℚ := 500

/-- `MAX_MCAP_LIQUIDITY_RATIO` in the source (renamed for Lean). -/
def maxMcapLiquidityRatio : ℚ := 10000

def MIN_POOLS_REQUIRED : ℕ := 3

def HONEYPOT_BLACKLIST : List String :=
  ["f45b5a5a20bb18a37e6e18c4cfe17dbc9be5aa3d6fa0453c06ee8da5c77e80b346455448",
   "addr1w9zru...lfqw"]

/-! ## Weighted price resolver (`calculateWeightedPrice`, source lines 159–382) -/

/-- One raw pool as returned by the pool source: `token_1_amount` is the ADA
side, `token_2_amount` the token side (already run through `parseFloat`,
with a missing field read as `0`). -/
structure RawPool where
  dex : String
  token1Amount : ℚ
  token2Amount : ℚ
deriving DecidableEq

/-- One mapped pool entry (source lines 228–253): the `valid` flag is false
when either side is `≤ 0`, in which case the amounts and price are zeroed. -/
structure MappedPool where
  dex : String
  adaAmount : ℚ
  tokenAmount : ℚ
  price : ℚ
  valid : Bool
deriving DecidableEq

/-- `pools.map(...)` of source lines 228–253: compute each pool's unit price,
marking pools with a non-positive side as invalid. -/
def mapPool (pool : RawPool) : MappedPool :=
  if pool.token1Amount ≤ 0 ∨ pool.token2Amount ≤ 0 then
    { dex := pool.dex, adaAmount := 0, tokenAmount := 0, price := 0, valid := false }
  else
    { dex := pool.dex, adaAmount := pool.token1Amount, tokenAmount := pool.token2Amount,
      price := pool.token1Amount / pool.token2Amount, valid := true }

/-- `poolsWithPrices` (source line 228): map each pool, keep the valid ones. -/
def poolsWithPrices (pools : List RawPool) : List MappedPool :=
  (pools.map mapPool).filter (·.valid)

/-- The record returned by `calculateWeightedPrice`.  Fields a given return
statement does not mention default to `0`/`false` (undefined is falsy). -/
structure PriceResult where
  weightedPrice : ℚ := 0
  totalLiquidity : ℚ := 0
  filteredOutliers : Bool := false
  poolCount : ℕ := 0
  originalPoolCount : ℕ := 0
  medianUsed : Bool := false
  suspiciousLiquidity : Bool := false
  priceFromAveragePrice : Bool := false
  noPoolsFound : Bool := false
  emptySuspiciousPools : Bool := false
deriving DecidableEq

/-- Source line 294: whether some pool price falls outside
`[MIN_REASONABLE_PRICE, MAX_REASONABLE_PRICE]`. -/
def hasExtremeOutliers (ps : List MappedPool) : Bool :=
  ps.any fun p => decide (p.price > MAX_REASONABLE_PRICE) || decide (p.price < MIN_REASONABLE_PRICE)

/-- Source lines 299–304: if any pool is an extreme outlier, keep only the
in-range pools; otherwise keep everything. -/
def reasonablePools (ps : List MappedPool) : List MappedPool :=
  if hasExtremeOutliers ps then
    ps.filter fun p => decide (p.price ≤ MAX_REASONABLE_PRICE) && decide (p.price ≥ MIN_REASONABLE_PRICE)
  else ps

/-- `reduce((sum, pool) => sum + pool.adaAmount, 0)` (source lines 316, 330). -/
def sumAda (ps : List MappedPool) : ℚ :=
  ps.foldl (fun s p => s + p.adaAmount) 0

/-- Source lines 308–310: sort the valid pools by price ascending (JS
`Array.prototype.sort` is stable) and take the element at `floor(n/2)`. -/
def medianPriceOf (valid : List MappedPool) : ℚ :=
  let sortedPrices := valid.mergeSort fun a b => decide (a.price ≤ b.price)
  (((sortedPrices.get? (sortedPrices.length / 2)).map (·.price)).getD 0)

/-- Source lines 344–354: the distribution is suspicious when there is exactly
one reasonable pool or the largest pool holds more than 95% of the total
(the source sorts descending by liquidity and inspects the head). -/
def suspiciousOf (reasonable : List MappedPool) (totalLiquidity : ℚ) : Bool :=
  match reasonable.mergeSort (fun a b => decide (b.adaAmount ≤ a.adaAmount)) with
  | [] => false
  | top :: _ =>
      decide (reasonable.length = 1) || decide (top.adaAmount / totalLiquidity > 95 / 100)

/-- Source lines 357–360: liquidity-weighted average over the reasonable pools. -/
def weightedFold (reasonable : List MappedPool) (totalLiquidity : ℚ) : ℚ :=
  reasonable.foldl (fun s p => s + p.price * (p.adaAmount / totalLiquidity)) 0

/-- The liquidity-weighted average written as a sum over the pools, with each
pool contributing `price × (poolLiquidity / totalLiquidity)`. -/
def weightedAvg (reasonable : List MappedPool) : ℚ :=
  ((reasonable.map fun p => p.price * (p.adaAmount / sumAda reasonable)).sum)

/-- Source lines 169–225: branch taken when the pool source returned no list
or an empty list.  The fallback price in the `token→ADA` direction is tried
first, then the `ADA→token` direction; both carry `suspiciousLiquidity=true`
and also `priceFromAveragePrice=true`, and neither sets `noPoolsFound`.  Only
when both lookups fail is the zero-price, `noPoolsFound=true` record built. -/
def emptyPoolsResult (fallbackBA fallbackAB : Option ℚ) : PriceResult :=
  match fallbackBA with
  | some p =>
      { weightedPrice := p, totalLiquidity := 0, filteredOutliers := false,
        poolCount := 0, originalPoolCount := 0,
        priceFromAveragePrice := true, suspiciousLiquidity := true }
  | none =>
      match fallbackAB with
      | some p =>
          { weightedPrice := p, totalLiquidity := 0, filteredOutliers := false,
            poolCount := 0, originalPoolCount := 0,
            priceFromAveragePrice := true, suspiciousLiquidity := true }
      | none =>
          { weightedPrice := 0, totalLiquidity := 0, filteredOutliers := false,
            poolCount := 0, originalPoolCount := 0,
            suspiciousLiquidity := true, noPoolsFound := true }

/-- `calculateWeightedPrice` (source lines 159–382), as a function of the data
the network calls return.  `pools` is the pool-source response, `fallbackBA`
the usable price of `/swap/averagePrice/token/ADA` (`price_ba`), `fallbackAB`
the usable price of the reverse call (`price_ab`).  Note that on the
all-pools-invalid branch (source lines 256–291) only the `token→ADA`
fallback is consulted. -/
def calculateWeightedPrice (pools : Option (List RawPool))
    (fallbackBA fallbackAB : Option ℚ) : PriceResult :=
  match pools with
  | none => emptyPoolsResult fallbackBA fallbackAB
  | some ps =>
    if ps.isEmpty then emptyPoolsResult fallbackBA fallbackAB
    else
      let valid := poolsWithPrices ps
      if valid.isEmpty then
        match fallbackBA with
        | some p =>
            { weightedPrice := p, totalLiquidity := 0, filteredOutliers := false,
              poolCount := 0, originalPoolCount := ps.length, medianUsed := false,
              suspiciousLiquidity := true, priceFromAveragePrice := true,
              emptySuspiciousPools := true }
        | none =>
            { weightedPrice := 0, totalLiquidity := 0, filteredOutliers := false,
              poolCount := 0, originalPoolCount := ps.length,
              suspiciousLiquidity := true, emptySuspiciousPools := true }
      else
        let reasonable := reasonablePools valid
        if reasonable.isEmpty then
          { weightedPrice := min (medianPriceOf valid) MAX_REASONABLE_PRICE,
            totalLiquidity := sumAda valid,
            filteredOutliers := true, medianUsed := true, poolCount := valid.length }
        else
          let totalLiquidity := sumAda reasonable
          if totalLiquidity = 0 then
            { weightedPrice := 0, totalLiquidity := 0,
              filteredOutliers := hasExtremeOutliers valid, poolCount := reasonable.length }
          else
            let susp := suspiciousOf reasonable totalLiquidity
            { weightedPrice := weightedFold reasonable totalLiquidity,
              totalLiquidity := totalLiquidity,
              filteredOutliers := hasExtremeOutliers valid,
              poolCount := reasonable.length,
              originalPoolCount := ps.length,
              medianUsed := susp,
              suspiciousLiquidity := susp,
              priceFromAveragePrice := false }

/-! ## Trust scorer (`calculateTrustScore`, source lines 396–691) -/

/-- One constructor per adjustment `push` site of `calculateTrustScore`,
standing for the human-readable reason string pushed there. -/
inductive Reason where
  | trustedWhitelist
  | honeypotBlacklist
  | copycatNamePattern
  | zeroSupplyHighLiquidity
  | mcapManipulation
  | lowSupplyVsLiquidity
  | noPoolsFallbackSource
  | highMcapNoVisiblePools
  | wrappedTokenPattern
  | noPools
  | singlePool
  | singlePoolHighMcapNoSupply
  | singlePoolExtreme
  | singlePoolHigh
  | lowPoolCount
  | goodPoolCount
  | extremelyLowLiquidity
  | veryLowLiquidity
  | lowLiquidity
  | veryHighLiquidity
  | goodLiquidity
  | suspiciousDistributionLow
  | suspiciousDistributionModerate
  | suspiciousDistributionHigh
  | extremeMcapToLiquidity
  | ageOverYear
  | ageOverHalfYear
  | ageOverMonth
deriving DecidableEq

/-- One entry of the `penalties`/`bonuses` audit trail: a reason tag and the
signed point delta pushed with it. -/
structure Adjustment where
  reason : Reason
  points : ℚ
deriving DecidableEq

/-- The mutable state of `calculateTrustScore`: the running score and the two
audit lists, threaded through the rule blocks in source order. -/
structure ScoreState where
  score : ℚ
  penalties : List Adjustment
  bonuses : List Adjustment
deriving DecidableEq

/-- `penalties.push({reason, points}); score += points` with `points < 0`
at every use site. -/
def addPenalty (s : ScoreState) (r : Reason) (pts : ℚ) : ScoreState :=
  { score := s.score + pts, penalties := s.penalties ++ [⟨r, pts⟩], bonuses := s.bonuses }

/-- `bonuses.push({reason, points}); score += points` with `points > 0`
at every use site. -/
def addBonus (s : ScoreState) (r : Reason) (pts : ℚ) : ScoreState :=
  { score := s.score + pts, penalties := s.penalties, bonuses := s.bonuses ++ [⟨r, pts⟩] }

/-- `TRUSTED_TOKENS` (source lines 403–405). -/
def TRUSTED_TOKENS : List String :=
  ["5b26e685cc5c9ad630bde3e3cd48c694436671f3d25df53777ca60ef4e564c"]

/-- JavaScript truthiness of the optional `ticker` argument: present and
non-empty. -/
def tickerTruthy : Option String → Bool
  | none => false
  | some t => !(t == "")

def isUpperAlpha (c : Char) : Bool := ('A' ≤ c) && (c ≤ 'Z')

def isLowerAlpha (c : Char) : Bool := ('a' ≤ c) && (c ≤ 'z')

def isAlphaChar (c : Char) : Bool := isUpperAlpha c || isLowerAlpha c

/-- `/^[Ii][A-Za-z]+$/` (source line 428): a leading `I`/`i` followed by one
or more letters. -/
def copycatOne : List Char → Bool
  | [] => false
  | c :: rest => (c == 'I' || c == 'i') && !rest.isEmpty && rest.all isAlphaChar

/-- `/^[A-Za-z]+[A-Z]{3,4}$/` (source line 429).  Because uppercase letters are
letters, the regex matches exactly the all-letter strings of length ≥ 4 whose
last three characters are uppercase (take the `[A-Z]{3,4}` block to be the
last three characters). -/
def copycatTwo (cs : List Char) : Bool :=
  cs.all isAlphaChar && decide (4 ≤ cs.length) && (cs.reverse.take 3).all isUpperAlpha

/-- `/^[A-Za-z]+[A-Z]{2,3}[A-Za-z]+$/` (source line 430): an all-letter string
with two consecutive uppercase characters that neither start the string nor
reach its last character (take the `[A-Z]{2,3}` block to be those two). -/
def copycatThree (cs : List Char) : Bool :=
  cs.all isAlphaChar &&
    (List.range cs.length).any fun i =>
      decide (1 ≤ i) && decide (i + 3 ≤ cs.length) &&
        isUpperAlpha (cs.getD i ' ') && isUpperAlpha (cs.getD (i + 1) ' ')

/-- `COPYCAT_PATTERNS.some(pattern => pattern.test(ticker))`
(source lines 427–433). -/
def copycatMatch (t : String) : Bool :=
  copycatOne t.toList || copycatTwo t.toList || copycatThree t.toList

/-- Per-character case-insensitive comparison against a lowercase pattern
character (the `i` flag of the wrapped-token regexes). -/
def charLowerEq (c p : Char) : Bool :=
  c == p || (isUpperAlpha c && (c.toNat + 32 == p.toNat))

/-- Case-insensitive equality of a ticker against one lowercase pattern. -/
def listEqCI : List Char → List Char → Bool
  | [], [] => true
  | c :: cs, p :: ps => charLowerEq c p && listEqCI cs ps
  | _, _ => false

/-- `WRAPPED_TOKEN_PATTERNS.some(pattern => pattern.test(ticker))`
(source lines 496–503): the four case-insensitive regexes
`/^[iwb]btc$/i`, `/^[iwbe]th$/i`, `/^[iw]usdc?$/i`, `/^[iw]usdt?$/i`
enumerate to this finite set of lowercase words. -/
def wrappedTokenMatch (t : String) : Bool :=
  ["ibtc", "wbtc", "bbtc",
   "ith", "wth", "bth", "eth",
   "iusd", "iusdc", "wusd", "wusdc",
   "iusdt", "wusdt"].any fun p => listEqCI t.toList p.toList

/-- Whitelist bonus (source lines 408–414). -/
def whitelistStep (tokenId : String) (s : ScoreState) : ScoreState :=
  if TRUSTED_TOKENS.contains tokenId then addBonus s .trustedWhitelist 50 else s

/-- Blacklist penalty (source lines 417–423). -/
def blacklistStep (tokenId : String) (s : ScoreState) : ScoreState :=
  if HONEYPOT_BLACKLIST.contains tokenId then addPenalty s .honeypotBlacklist (-100) else s

/-- Copycat naming penalty (source lines 426–440). -/
def copycatStep (ticker : Option String) (marketCap : ℚ) (s : ScoreState) : ScoreState :=
  if tickerTruthy ticker then
    if copycatMatch (ticker.getD "") && decide (marketCap > 1000000) then
      addPenalty s .copycatNamePattern (-25)
    else s
  else s

/-- Supply discrepancy penalty (source lines 443–451). -/
def supplyDiscrepancyStep (marketCap circulatingSupply totalLiquidity : ℚ)
    (s : ScoreState) : ScoreState :=
  if marketCap > 1000000 then
    if circulatingSupply = 0 ∧ totalLiquidity > 100000 then
      addPenalty s .zeroSupplyHighLiquidity (-50)
    else s
  else s

/-- Price-manipulation indicators (source lines 454–473). -/
def manipulationStep (totalLiquidity marketCap circulatingSupply : ℚ)
    (s : ScoreState) : ScoreState :=
  if totalLiquidity > 0 ∧ marketCap > 0 then
    let ratio := marketCap / totalLiquidity
    let s1 := if ratio > 50 ∧ marketCap > 5000000 then
        addPenalty s .mcapManipulation (-40) else s
    if circulatingSupply < totalLiquidity * (1 / 10) ∧ marketCap > 1000000 then
      addPenalty s1 .lowSupplyVsLiquidity (-30)
    else s1
  else s

/-- Pool-count assessment (source lines 476–565), branched on whether the
price came from the fallback average-price endpoint. -/
def poolCountStep (priceFromAveragePrice : Bool) (poolCount : ℕ)
    (marketCap circulatingSupply totalLiquidity : ℚ) (ticker : Option String)
    (s : ScoreState) : ScoreState :=
  if priceFromAveragePrice then
    if poolCount = 0 then
      let s1 := addPenalty s .noPoolsFallbackSource (-40)
      let s2 := if marketCap > 1000000 then
          addPenalty s1 .highMcapNoVisiblePools (-20) else s1
      if tickerTruthy ticker && wrappedTokenMatch (ticker.getD "") then
        addBonus s2 .wrappedTokenPattern 30
      else s2
    else s
  else
    if poolCount = 0 then addPenalty s .noPools (-80)
    else if poolCount = 1 then
      let s1 := addPenalty s .singlePool (-30)
      let s2 := if marketCap > 10000000 ∧ circulatingSupply = 0 then
          addPenalty s1 .singlePoolHighMcapNoSupply (-50) else s1
      if marketCap > 0 ∧ totalLiquidity > 0 then
        let ratio := marketCap / totalLiquidity
        if ratio > 100 then addPenalty s2 .singlePoolExtreme (-40)
        else if ratio > 50 then addPenalty s2 .singlePoolHigh (-20)
        else s2
      else s2
    else if 2 ≤ poolCount ∧ poolCount < MIN_POOLS_REQUIRED then
      addPenalty s .lowPoolCount (-10)
    else if MIN_POOLS_REQUIRED ≤ poolCount then
      addBonus s .goodPoolCount 10
    else s

/-- Liquidity tiering (source lines 567–598): a single `if`/`else if` chain,
so the tiers are mutually exclusive, evaluated top-down.  The third branch
compares against `MIN_LIQUIDITY_THRESHOLD = 500` and is unreachable after
`totalLiquidity < 500` has failed. -/
def liquidityStep (totalLiquidity : ℚ) (s : ScoreState) : ScoreState :=
  if totalLiquidity < 100 then addPenalty s .extremelyLowLiquidity (-70)
  else if totalLiquidity < 500 then addPenalty s .veryLowLiquidity (-50)
  else if totalLiquidity < MIN_LIQUIDITY_THRESHOLD then addPenalty s .lowLiquidity (-30)
  else if totalLiquidity > 100000 then addBonus s .veryHighLiquidity 20
  else if totalLiquidity > 20000 then addBonus s .goodLiquidity 10
  else s

/-- Suspicious liquidity-distribution penalty (source lines 601–622). -/
def concentrationStep (suspiciousLiquidity : Bool) (totalLiquidity : ℚ)
    (s : ScoreState) : ScoreState :=
  if suspiciousLiquidity then
    if totalLiquidity < 20000 then addPenalty s .suspiciousDistributionLow (-30)
    else if totalLiquidity < 50000 then addPenalty s .suspiciousDistributionModerate (-15)
    else addPenalty s .suspiciousDistributionHigh (-5)
  else s

/-- Global market-cap-to-liquidity ratio cap (source lines 625–634). -/
def ratioCapStep (marketCap totalLiquidity : ℚ) (s : ScoreState) : ScoreState :=
  if marketCap > 0 ∧ totalLiquidity > 0 then
    if marketCap / totalLiquidity > maxMcapLiquidityRatio then
      addPenalty s .extremeMcapToLiquidity (-40)
    else s
  else s

/-- Age bonus (source lines 637–657). -/
def ageStep (tokenAge : ℚ) (s : ScoreState) : ScoreState :=
  if tokenAge > 0 then
    if tokenAge > 365 then addBonus s .ageOverYear 15
    else if tokenAge > 180 then addBonus s .ageOverHalfYear 10
    else if tokenAge > 30 then addBonus s .ageOverMonth 5
    else s
  else s

/-- All rule blocks of `calculateTrustScore` applied in source order to the
initial state (score 100, empty audit lists). -/
def scoreRules (tokenId : String) (poolCount : ℕ) (suspiciousLiquidity : Bool)
    (totalLiquidity marketCap circulatingSupply : ℚ) (ticker : Option String)
    (tokenAge : ℚ) (priceFromAveragePrice : Bool) : ScoreState :=
  ageStep tokenAge
    (ratioCapStep marketCap totalLiquidity
      (concentrationStep suspiciousLiquidity totalLiquidity
        (liquidityStep totalLiquidity
          (poolCountStep priceFromAveragePrice poolCount marketCap circulatingSupply
              totalLiquidity ticker
            (manipulationStep totalLiquidity marketCap circulatingSupply
              (supplyDiscrepancyStep marketCap circulatingSupply totalLiquidity
                (copycatStep ticker marketCap
                  (blacklistStep tokenId
                    (whitelistStep tokenId ⟨100, [], []⟩)))))))))

/-- The `trustLevel` strings of source lines 666–681. -/
inductive TrustLevel where
  | veryLow
  | low
  | moderate
  | good
  | high
deriving DecidableEq

/-- The record returned by `calculateTrustScore` (source lines 683–690). -/
structure TrustAssessment where
  score : ℚ
  trustLevel : TrustLevel
  isHoneypot : Bool
  penalties : List Adjustment
  bonuses : List Adjustment
  priceFromAveragePrice : Bool
deriving DecidableEq

/-- `calculateTrustScore` (source lines 396–691): run the rule blocks, floor
the score at 0, classify. -/
def calculateTrustScore (tokenId : String) (poolCount : ℕ) (suspiciousLiquidity : Bool)
    (totalLiquidity marketCap circulatingSupply : ℚ) (ticker : Option String)
    (tokenAge : ℚ) (priceFromAveragePrice : Bool) : TrustAssessment :=
  let st := scoreRules tokenId poolCount suspiciousLiquidity totalLiquidity marketCap
    circulatingSupply ticker tokenAge priceFromAveragePrice
  let score := max 0 st.score
  let cls : TrustLevel × Bool :=
    if score < 20 then (.veryLow, true)
    else if score < 40 then (.low, decide (totalLiquidity < 5000))
    else if score < 60 then (.moderate, false)
    else if score < 80 then (.good, false)
    else (.high, false)
  { score := score, trustLevel := cls.1, isHoneypot := cls.2,
    penalties := st.penalties, bonuses := st.bonuses,
    priceFromAveragePrice := priceFromAveragePrice }

/-! ## Market cap validator (`validateMarketCap`, source lines 740–807) and the
assessment object `enhanceTokenData` passes to it (source lines 889–906) -/

/-- The trust-assessment object as it reaches `validateMarketCap` in
`enhanceTokenData`: the `calculateTrustScore` output plus the flags attached
at source lines 902–906.  The source never attaches a `trustScore` or
`reason` property to this object (those belong to the legacy `checkHoneypot`
format), so reading them yields `undefined`; `trustScore` is kept as an
`Option` that the pipeline always leaves `none`. -/
structure EnhancedAssessment where
  score : ℚ
  trustLevel : TrustLevel
  isHoneypot : Bool
  penalties : List Adjustment
  bonuses : List Adjustment
  priceFromAveragePrice : Bool
  potentialCopycatDetected : Bool
  supplyDiscrepancy : Bool
  noPoolsFound : Bool
  emptySuspiciousPools : Bool
  circulatingSupply : ℚ
  trustScore : Option ℚ := none
deriving DecidableEq

/-- Source lines 889–906: the trust assessment built by `enhanceTokenData`
from the scorer output and the resolver flags. -/
def enhanceAssessment (ta : TrustAssessment)
    (potentialCopycatDetected supplyDiscrepancy noPoolsFound emptySuspiciousPools : Bool)
    (circulating : ℚ) : EnhancedAssessment :=
  { score := ta.score, trustLevel := ta.trustLevel, isHoneypot := ta.isHoneypot,
    penalties := ta.penalties, bonuses := ta.bonuses,
    priceFromAveragePrice := ta.priceFromAveragePrice,
    potentialCopycatDetected := potentialCopycatDetected,
    supplyDiscrepancy := supplyDiscrepancy,
    noPoolsFound := noPoolsFound,
    emptySuspiciousPools := emptySuspiciousPools,
    circulatingSupply := circulating,
    trustScore := none }

/-- One constructor per `reasons.push` site of `validateMarketCap`. -/
inductive VReason where
  | suspiciousEmptyPools
  | noPoolsHighMcap
  | reportedSupplyDiscrepancy
  | insufficientLiquidity
  | suspiciousMcapLiquidity
  | extremeMcapLiquidity
  | potentialHoneypot
  | lowTrustCaution
  | highMcapZeroSupply
  | invalidMcapZeroSupply
deriving DecidableEq

/-- The record returned by `validateMarketCap`. -/
structure ValidationResult where
  valid : Bool
  reasons : List VReason
  trustScore : ℚ
deriving DecidableEq

/-- `validateMarketCap` (source lines 740–807).  The checks run in source
order, each appending its reason and possibly clearing `valid`.  The
`trustAssessment.trustScore` reads of lines 744 and 790 see `undefined`
(`none`) on the object the pipeline passes: `undefined || 0` is `0` and
`undefined < 40` is `false`. -/
def validateMarketCap (marketCap totalLiquidity : ℚ) (ta : EnhancedAssessment) :
    ValidationResult :=
  let r : ValidationResult :=
    { valid := true, reasons := [], trustScore := ta.trustScore.getD 0 }
  let r := if ta.emptySuspiciousPools then
      { r with valid := false, reasons := r.reasons ++ [.suspiciousEmptyPools] }
    else r
  let r := if ta.noPoolsFound && decide (marketCap > 1000000) then
      { r with reasons := r.reasons ++ [.noPoolsHighMcap] }
    else r
  let r := if ta.supplyDiscrepancy then
      { r with valid := false, reasons := r.reasons ++ [.reportedSupplyDiscrepancy] }
    else r
  let r := if totalLiquidity < MIN_LIQUIDITY_THRESHOLD then
      { r with reasons := r.reasons ++ [.insufficientLiquidity] }
    else r
  let r :=
    if totalLiquidity > 0 ∧ marketCap > 0 then
      if marketCap / totalLiquidity > maxMcapLiquidityRatio then
        let r1 := { r with reasons := r.reasons ++ [.suspiciousMcapLiquidity] }
        if marketCap / totalLiquidity > maxMcapLiquidityRatio * 10 then
          { r1 with valid := false, reasons := r1.reasons ++ [.extremeMcapLiquidity] }
        else r1
      else r
    else r
  let r :=
    if ta.isHoneypot then
      { r with valid := false, reasons := r.reasons ++ [.potentialHoneypot] }
    else if (match ta.trustScore with | some s => decide (s < 40) | none => false) then
      { r with reasons := r.reasons ++ [.lowTrustCaution] }
    else r
  let r :=
    if marketCap > 1000000 ∧ ta.circulatingSupply = 0 then
      let r1 := { r with reasons := r.reasons ++ [.highMcapZeroSupply] }
      if marketCap > 5000000 then
        { r1 with valid := false, reasons := r1.reasons ++ [.invalidMcapZeroSupply] }
      else r1
    else r
  r

/-! ## Report generation (`generateMarketCapReport`, source lines 1047–1110) -/

/-- The slice of a stored `trust_assessment` object the report reads. -/
structure TrustLite where
  score : ℚ
deriving DecidableEq

/-- The slice of an enhanced token record the ranked list depends on.
`trustAssessment` is `none` for degraded records that carry no
`trust_assessment` property (a falsy read in the source's filter). -/
structure ReportToken where
  marketCap : ℚ
  trustAssessment : Option TrustLite
deriving DecidableEq

/-- `MODERATE_TRUST_THRESHOLD` (source line 1050). -/
def MODERATE_TRUST_THRESHOLD : ℚ := 40

/-- Source lines 1073–1077: tokens with positive market cap whose trust score
reaches the moderate threshold. -/
def validMarketCapTokens (tokens : List ReportToken) : List ReportToken :=
  tokens.filter fun t =>
    decide (t.marketCap > 0) &&
      (match t.trustAssessment with
       | some a => decide (a.score ≥ MODERATE_TRUST_THRESHOLD)
       | none => false)

/-- The slice of the report relevant to the ranked list. -/
structure MarketCapReport where
  totalTokens : ℕ
  tokensWithValidMarketCaps : ℕ
  topTokensByMarketCapValid : List ReportToken
deriving DecidableEq

/-- `generateMarketCapReport` (source lines 1047–1110): filter to the valid
set and sort it descending by market cap (`(a, b) => b.market_cap -
a.market_cap` under JavaScript's stable sort). -/
def generateMarketCapReport (tokens : List ReportToken) : MarketCapReport :=
  let valid := validMarketCapTokens tokens
  { totalTokens := tokens.length,
    tokensWithValidMarketCaps := valid.length,
    topTokensByMarketCapValid :=
      valid.mergeSort fun a b => decide (b.marketCap ≤ a.marketCap) }

/-! ## Shared helper definitions and lemmas -/

/-- Total points of an audit list. -/
def sumPoints (l : List Adjustment) : ℚ :=
  (l.map (·.points)).sum

/-- Invariant threaded through the scorer's rule blocks: every recorded
penalty is strictly negative, every recorded bonus strictly positive, and
the running score is 100 plus the recorded deltas. -/
def AuditOk (s : ScoreState) : Prop :=
  (s.penalties.all fun a => decide (a.points < 0)) = true ∧
    (s.bonuses.all fun a => decide (0 < a.points)) = true ∧
    s.score = 100 + sumPoints s.penalties + sumPoints s.bonuses

theorem sumPoints_append (l₁ l₂ : List Adjustment) :
    sumPoints (l₁ ++ l₂) = sumPoints l₁ + sumPoints l₂ := by
  simp [sumPoints]

theorem AuditOk.addPenaltyOk {s : ScoreState} (h : AuditOk s) {r : Reason} {p : ℚ}
    (hp : p < 0) : AuditOk (addPenalty s r p) := by
  obtain ⟨h1, h2, h3⟩ := h
  refine ⟨?_, h2, ?_⟩
  · simp only [addPenalty, List.all_append, h1, Bool.true_and, List.all_cons,
      List.all_nil, Bool.and_true, decide_eq_true_eq]
    exact hp
  · show s.score + p = 100 + sumPoints (s.penalties ++ [⟨r, p⟩]) + sumPoints s.bonuses
    rw [sumPoints_append, h3]
    simp only [sumPoints, List.map_cons, List.map_nil, List.sum_cons, List.sum_nil]
    ring

theorem AuditOk.addBonusOk {s : ScoreState} (h : AuditOk s) {r : Reason} {p : ℚ}
    (hp : 0 < p) : AuditOk (addBonus s r p) := by
  obtain ⟨h1, h2, h3⟩ := h
  refine ⟨h1, ?_, ?_⟩
  · simp only [addBonus, List.all_append, h2, Bool.true_and, List.all_cons,
      List.all_nil, Bool.and_true, decide_eq_true_eq]
    exact hp
  · show s.score + p = 100 + sumPoints s.penalties + sumPoints (s.bonuses ++ [⟨r, p⟩])
    rw [sumPoints_append, h3]
    simp only [sumPoints, List.map_cons, List.map_nil, List.sum_cons, List.sum_nil]
    ring

theorem auditOk_ite {c : Prop} [Decidable c] {a b : ScoreState}
    (ha : AuditOk a) (hb : AuditOk b) : AuditOk (if c then a else b) := by
  split_ifs <;> assumption

theorem auditOk_init : AuditOk ⟨100, [], []⟩ := by
  refine ⟨rfl, rfl, ?_⟩
  simp [sumPoints]

theorem auditOk_whitelistStep {s : ScoreState} (h : AuditOk s) (tokenId : String) :
    AuditOk (whitelistStep tokenId s) :=
  auditOk_ite (h.addBonusOk (by norm_num)) h

theorem auditOk_blacklistStep {s : ScoreState} (h : AuditOk s) (tokenId : String) :
    AuditOk (blacklistStep tokenId s) :=
  auditOk_ite (h.addPenaltyOk (by norm_num)) h

theorem auditOk_copycatStep {s : ScoreState} (h : AuditOk s) (ticker : Option String)
    (marketCap : ℚ) : AuditOk (copycatStep ticker marketCap s) :=
  auditOk_ite (auditOk_ite (h.addPenaltyOk (by norm_num)) h) h

theorem auditOk_supplyDiscrepancyStep {s : ScoreState} (h : AuditOk s)
    (marketCap circulatingSupply totalLiquidity : ℚ) :
    AuditOk (supplyDiscrepancyStep marketCap circulatingSupply totalLiquidity s) :=
  auditOk_ite (auditOk_ite (h.addPenaltyOk (by norm_num)) h) h

theorem auditOk_manipulationStep {s : ScoreState} (h : AuditOk s)
    (totalLiquidity marketCap circulatingSupply : ℚ) :
    AuditOk (manipulationStep totalLiquidity marketCap circulatingSupply s) := by
  unfold manipulationStep
  have hs1 : AuditOk (if marketCap / totalLiquidity > 50 ∧ marketCap > 5000000 then
      addPenalty s .mcapManipulation (-40) else s) :=
    auditOk_ite (h.addPenaltyOk (by norm_num)) h
  exact auditOk_ite (auditOk_ite (hs1.addPenaltyOk (by norm_num)) hs1) h

theorem auditOk_poolCountStep {s : ScoreState} (h : AuditOk s)
    (priceFromAveragePrice : Bool) (poolCount : ℕ)
    (marketCap circulatingSupply totalLiquidity : ℚ) (ticker : Option String) :
    AuditOk (poolCountStep priceFromAveragePrice poolCount marketCap circulatingSupply
      totalLiquidity ticker s) := by
  unfold poolCountStep
  have hf2 : AuditOk (if marketCap > 1000000 then
      addPenalty (addPenalty s .noPoolsFallbackSource (-40)) .highMcapNoVisiblePools (-20)
      else addPenalty s .noPoolsFallbackSource (-40)) :=
    auditOk_ite ((h.addPenaltyOk (by norm_num)).addPenaltyOk (by norm_num))
      (h.addPenaltyOk (by norm_num))
  have hs2 : AuditOk (if marketCap > 10000000 ∧ circulatingSupply = 0 then
      addPenalty (addPenalty s .singlePool (-30)) .singlePoolHighMcapNoSupply (-50)
      else addPenalty s .singlePool (-30)) :=
    auditOk_ite ((h.addPenaltyOk (by norm_num)).addPenaltyOk (by norm_num))
      (h.addPenaltyOk (by norm_num))
  exact auditOk_ite
    (auditOk_ite (auditOk_ite (hf2.addBonusOk (by norm_num)) hf2) h)
    (auditOk_ite (h.addPenaltyOk (by norm_num))
      (auditOk_ite
        (auditOk_ite
          (auditOk_ite (hs2.addPenaltyOk (by norm_num))
            (auditOk_ite (hs2.addPenaltyOk (by norm_num)) hs2))
          hs2)
        (auditOk_ite (h.addPenaltyOk (by norm_num))
          (auditOk_ite (h.addBonusOk (by norm_num)) h))))

theorem auditOk_liquidityStep {s : ScoreState} (h : AuditOk s) (totalLiquidity : ℚ) :
    AuditOk (liquidityStep totalLiquidity s) :=
  auditOk_ite (h.addPenaltyOk (by norm_num))
    (auditOk_ite (h.addPenaltyOk (by norm_num))
      (auditOk_ite (h.addPenaltyOk (by norm_num))
        (auditOk_ite (h.addBonusOk (by norm_num))
          (auditOk_ite (h.addBonusOk (by norm_num)) h))))

theorem auditOk_concentrationStep {s : ScoreState} (h : AuditOk s)
    (suspiciousLiquidity : Bool) (totalLiquidity : ℚ) :
    AuditOk (concentrationStep suspiciousLiquidity totalLiquidity s) :=
  auditOk_ite
    (auditOk_ite (h.addPenaltyOk (by norm_num))
      (auditOk_ite (h.addPenaltyOk (by norm_num)) (h.addPenaltyOk (by norm_num))))
    h

theorem auditOk_ratioCapStep {s : ScoreState} (h : AuditOk s)
    (marketCap totalLiquidity : ℚ) : AuditOk (ratioCapStep marketCap totalLiquidity s) :=
  auditOk_ite (auditOk_ite (h.addPenaltyOk (by norm_num)) h) h

theorem auditOk_ageStep {s : ScoreState} (h : AuditOk s) (tokenAge : ℚ) :
    AuditOk (ageStep tokenAge s) :=
  auditOk_ite
    (auditOk_ite (h.addBonusOk (by norm_num))
      (auditOk_ite (h.addBonusOk (by norm_num))
        (auditOk_ite (h.addBonusOk (by norm_num)) h)))
    h

theorem auditOk_scoreRules (tokenId : String) (poolCount : ℕ) (suspiciousLiquidity : Bool)
    (totalLiquidity marketCap circulatingSupply : ℚ) (ticker : Option String)
    (tokenAge : ℚ) (priceFromAveragePrice : Bool) :
    AuditOk (scoreRules tokenId poolCount suspiciousLiquidity totalLiquidity marketCap
      circulatingSupply ticker tokenAge priceFromAveragePrice) :=
  auditOk_ageStep
    (auditOk_ratioCapStep
      (auditOk_concentrationStep
        (auditOk_liquidityStep
          (auditOk_poolCountStep
            (auditOk_manipulationStep
              (auditOk_supplyDiscrepancyStep
                (auditOk_copycatStep
                  (auditOk_blacklistStep (auditOk_whitelistStep auditOk_init _) _)
                  _ _)
                _ _ _)
              _ _ _)
            _ _ _ _ _ _)
          _)
        _ _)
      _ _)
    _

theorem foldl_add_eq_sum (f : MappedPool → ℚ) (l : List MappedPool) (a : ℚ) :
    l.foldl (fun s p => s + f p) a = a + (l.map f).sum := by
  induction l generalizing a with
  | nil => simp
  | cons x xs ih => simp [ih]; ring

theorem sumAda_eq (l : List MappedPool) : sumAda l = (l.map (·.adaAmount)).sum := by
  simpa using foldl_add_eq_sum (·.adaAmount) l 0

theorem weightedFold_eq (l : List MappedPool) (t : ℚ) :
    weightedFold l t = (l.map fun p => p.price * (p.adaAmount / t)).sum := by
  simpa using foldl_add_eq_sum (fun p => p.price * (p.adaAmount / t)) l 0

theorem adaAmount_pos_of_mem {ps : List RawPool} {p : MappedPool}
    (hp : p ∈ poolsWithPrices ps) : 0 < p.adaAmount := by
  unfold poolsWithPrices at hp
  rw [List.mem_filter] at hp
  obtain ⟨hm, hv⟩ := hp
  rw [List.mem_map] at hm
  obtain ⟨q, _, rfl⟩ := hm
  unfold mapPool at hv ⊢
  by_cases h : q.token1Amount ≤ 0 ∨ q.token2Amount ≤ 0
  · rw [if_pos h] at hv
    simp at hv
  · rw [if_neg h]
    push_neg at h
    exact h.1

theorem mem_of_mem_reasonablePools {ps : List MappedPool} {p : MappedPool}
    (hp : p ∈ reasonablePools ps) : p ∈ ps := by
  unfold reasonablePools at hp
  split_ifs at hp
  · exact (List.mem_filter.mp hp).1
  · exact hp

theorem reasonablePools_nil : reasonablePools [] = [] := by
  unfold reasonablePools
  split_ifs <;> rfl

theorem not_isEmpty_of_ne_nil {α : Type} {l : List α} (h : l ≠ []) :
    ¬(l.isEmpty = true) := by
  cases l with
  | nil => exact absurd rfl h
  | cons a l => simp

theorem sumAda_pos {ps : List RawPool}
    (hl : reasonablePools (poolsWithPrices ps) ≠ []) :
    0 < sumAda (reasonablePools (poolsWithPrices ps)) := by
  rw [sumAda_eq]
  apply List.sum_pos
  · intro x hx
    rw [List.mem_map] at hx
    obtain ⟨p, hp, rfl⟩ := hx
    exact adaAmount_pos_of_mem (mem_of_mem_reasonablePools hp)
  · simpa using hl

/-! ## Claim theorems -/

/-- C2: for every Trust Scorer input the final reported score is the raw rule
total floored at 0, and the classification is determined by the score:
score < 20 gives VeryLow with isHoneypot unconditionally, 20 ≤ score < 40
gives Low with isHoneypot exactly when totalLiquidity < 5000, then Moderate,
Good, High, none of which is a honeypot; in particular a blacklisted token
with zero pools and zero liquidity (raw adjustment −250 < −100) scores
exactly 0, VeryLow, honeypot. -/
theorem C2_score_floor_and_classification
    (tokenId : String) (poolCount : ℕ) (susp : Bool) (liq mcap circ : ℚ)
    (ticker : Option String) (age : ℚ) (pFA : Bool) :
    ((calculateTrustScore tokenId poolCount susp liq mcap circ ticker age pFA).score
        = max 0 (scoreRules tokenId poolCount susp liq mcap circ ticker age pFA).score
      ∧ 0 ≤ (calculateTrustScore tokenId poolCount susp liq mcap circ ticker age pFA).score
      ∧ (calculateTrustScore tokenId poolCount susp liq mcap circ ticker age pFA).trustLevel
        = (if (calculateTrustScore tokenId poolCount susp liq mcap circ ticker age pFA).score < 20
            then .veryLow
           else if (calculateTrustScore tokenId poolCount susp liq mcap circ ticker age pFA).score < 40
            then .low
           else if (calculateTrustScore tokenId poolCount susp liq mcap circ ticker age pFA).score < 60
            then .moderate
           else if (calculateTrustScore tokenId poolCount susp liq mcap circ ticker age pFA).score < 80
            then .good
           else .high)
      ∧ (calculateTrustScore tokenId poolCount susp liq mcap circ ticker age pFA).isHoneypot
        = (if (calculateTrustScore tokenId poolCount susp liq mcap circ ticker age pFA).score < 20
            then true
           else if (calculateTrustScore tokenId poolCount susp liq mcap circ ticker age pFA).score < 40
            then decide (liq < 5000)
           else false))
    ∧ ((calculateTrustScore
          "f45b5a5a20bb18a37e6e18c4cfe17dbc9be5aa3d6fa0453c06ee8da5c77e80b346455448"
          0 false 0 0 0 none 0 false).score = 0
      ∧ (calculateTrustScore
          "f45b5a5a20bb18a37e6e18c4cfe17dbc9be5aa3d6fa0453c06ee8da5c77e80b346455448"
          0 false 0 0 0 none 0 false).trustLevel = .veryLow
      ∧ (calculateTrustScore
          "f45b5a5a20bb18a37e6e18c4cfe17dbc9be5aa3d6fa0453c06ee8da5c77e80b346455448"
          0 false 0 0 0 none 0 false).isHoneypot = true) := by
  constructor
  · refine ⟨rfl, le_max_left 0 _, ?_, ?_⟩
    · simp only [calculateTrustScore]
      split_ifs <;> rfl
    · simp only [calculateTrustScore]
      split_ifs <;> rfl
  · have hw : "f45b5a5a20bb18a37e6e18c4cfe17dbc9be5aa3d6fa0453c06ee8da5c77e80b346455448"
        ∉ TRUSTED_TOKENS := by decide
    have hb : "f45b5a5a20bb18a37e6e18c4cfe17dbc9be5aa3d6fa0453c06ee8da5c77e80b346455448"
        ∈ HONEYPOT_BLACKLIST := by decide
    refine ⟨?_, ?_, ?_⟩ <;>
      norm_num [calculateTrustScore, scoreRules, whitelistStep, blacklistStep, copycatStep,
        supplyDiscrepancyStep, manipulationStep, poolCountStep, liquidityStep,
        concentrationStep, ratioCapStep, ageStep, addPenalty, addBonus, tickerTruthy,
        MIN_LIQUIDITY_THRESHOLD, maxMcapLiquidityRatio, MIN_POOLS_REQUIRED, hw, hb]

/-- C3: whenever outlier filtering leaves at least one reasonable pool, the
resolver reports totalLiquidity equal to the sum of base-side (ADA) amounts
over the reasonable pools, and weightedPrice equal to the liquidity-weighted
average (each reasonable pool contributing price × poolLiquidity /
totalLiquidity), with weightedPrice 0 if that sum were zero; in particular
two in-range pools with liquidities 100 and 300 and prices 1 and 3 give
weightedPrice 2.5. -/
theorem C3_weighted_average :
    (∀ (ps : List RawPool) (fbBA fbAB : Option ℚ),
        ps ≠ [] →
        reasonablePools (poolsWithPrices ps) ≠ [] →
        (calculateWeightedPrice (some ps) fbBA fbAB).totalLiquidity
            = sumAda (reasonablePools (poolsWithPrices ps))
          ∧ (calculateWeightedPrice (some ps) fbBA fbAB).weightedPrice
            = (if sumAda (reasonablePools (poolsWithPrices ps)) = 0 then 0
               else weightedAvg (reasonablePools (poolsWithPrices ps))))
    ∧ (calculateWeightedPrice
        (some [⟨"dexA", 100, 100⟩, ⟨"dexB", 300, 100⟩]) none none).weightedPrice = 5 / 2 := by
  constructor
  · intro ps fbBA fbAB hps hre
    have hval : poolsWithPrices ps ≠ [] := by
      intro h
      rw [h, reasonablePools_nil] at hre
      exact hre rfl
    have h1 := not_isEmpty_of_ne_nil hps
    have h2 := not_isEmpty_of_ne_nil hval
    have h3 := not_isEmpty_of_ne_nil hre
    simp only [calculateWeightedPrice]
    rw [if_neg h1, if_neg h2, if_neg h3]
    by_cases h0 : sumAda (reasonablePools (poolsWithPrices ps)) = 0
    · rw [if_pos h0, if_pos h0]
      exact ⟨h0.symm, rfl⟩
    · rw [if_neg h0, if_neg h0]
      exact ⟨rfl, by rw [show weightedAvg (reasonablePools (poolsWithPrices ps))
        = weightedFold (reasonablePools (poolsWithPrices ps))
            (sumAda (reasonablePools (poolsWithPrices ps))) from
          (weightedFold_eq _ _).symm]⟩
  · norm_num [calculateWeightedPrice, poolsWithPrices, mapPool, reasonablePools,
      hasExtremeOutliers, sumAda, weightedFold, suspiciousOf,
      MAX_REASONABLE_PRICE, MIN_REASONABLE_PRICE, List.mergeSort]

/-- C3 witness: the universal part of `C3_weighted_average` applied to the two
concrete in-range pools with ADA sides 100 and 300 and token sides 100. -/
theorem C3_weighted_average_witness :
    ([⟨"dexA", 100, 100⟩, ⟨"dexB", 300, 100⟩] : List RawPool) ≠ []
    ∧ reasonablePools (poolsWithPrices [⟨"dexA", 100, 100⟩, ⟨"dexB", 300, 100⟩]) ≠ []
    ∧ ((calculateWeightedPrice
          (some [⟨"dexA", 100, 100⟩, ⟨"dexB", 300, 100⟩]) none none).totalLiquidity
        = sumAda (reasonablePools (poolsWithPrices
            [⟨"dexA", 100, 100⟩, ⟨"dexB", 300, 100⟩]))
      ∧ (calculateWeightedPrice
          (some [⟨"dexA", 100, 100⟩, ⟨"dexB", 300, 100⟩]) none none).weightedPrice
        = (if sumAda (reasonablePools (poolsWithPrices
              [⟨"dexA", 100, 100⟩, ⟨"dexB", 300, 100⟩])) = 0 then 0
           else weightedAvg (reasonablePools (poolsWithPrices
              [⟨"dexA", 100, 100⟩, ⟨"dexB", 300, 100⟩])))) := by
  have hne : ([⟨"dexA", 100, 100⟩, ⟨"dexB", 300, 100⟩] : List RawPool) ≠ [] := by simp
  have hre : reasonablePools (poolsWithPrices
      [⟨"dexA", 100, 100⟩, ⟨"dexB", 300, 100⟩]) ≠ [] := by
    norm_num [poolsWithPrices, mapPool, reasonablePools, hasExtremeOutliers,
      MAX_REASONABLE_PRICE, MIN_REASONABLE_PRICE]
    exact List.cons_ne_nil _ _
  exact ⟨hne, hre, C3_weighted_average.1 _ none none hne hre⟩

/-- C4 counterexample: a single valid in-range pool (100 ADA / 50 tokens,
price 2) takes the weighted-average path — no pool is range-filtered
(`filteredOutliers = false`, the reasonable pools are all the valid pools) —
yet the result reports `medianUsed = true`, because the weighted-average
return sets `medianUsed := suspiciousLiquidity` (source line 368) and a
single pool is a suspicious concentration.  This refutes the claim that
`medianFallbackUsed` is false on the weighted-average path. -/
theorem C4_median_flag_counterexample :
    reasonablePools (poolsWithPrices [⟨"dexA", 100, 50⟩])
        = poolsWithPrices [⟨"dexA", 100, 50⟩]
    ∧ poolsWithPrices [⟨"dexA", 100, 50⟩] ≠ []
    ∧ (calculateWeightedPrice (some [⟨"dexA", 100, 50⟩]) none none).filteredOutliers = false
    ∧ (calculateWeightedPrice (some [⟨"dexA", 100, 50⟩]) none none).poolCount = 1
    ∧ (calculateWeightedPrice (some [⟨"dexA", 100, 50⟩]) none none).weightedPrice = 2
    ∧ (calculateWeightedPrice (some [⟨"dexA", 100, 50⟩]) none none).medianUsed = true := by
  refine ⟨?_, ?_, ?_, ?_, ?_, ?_⟩ <;>
    norm_num [calculateWeightedPrice, poolsWithPrices, mapPool, reasonablePools,
      hasExtremeOutliers, sumAda, weightedFold, suspiciousOf,
      MAX_REASONABLE_PRICE, MIN_REASONABLE_PRICE, List.mergeSort]

/-- C4 (amended): for every non-empty set of valid pools, `medianUsed` is true
exactly when range-filtering removes all candidate pools or when the
weighted-average path flags a suspicious concentration; on the median path
the price is the ascending-sorted median element at index floor(n/2) capped
at MAX_REASONABLE_PRICE, the liquidity is the sum over all valid pools, and
outliers are reported filtered. -/
theorem C4_median_fallback_amended :
    ∀ (ps : List RawPool) (fbBA fbAB : Option ℚ),
      poolsWithPrices ps ≠ [] →
      ((calculateWeightedPrice (some ps) fbBA fbAB).medianUsed
          = ((reasonablePools (poolsWithPrices ps)).isEmpty
              || suspiciousOf (reasonablePools (poolsWithPrices ps))
                  (sumAda (reasonablePools (poolsWithPrices ps)))))
      ∧ (reasonablePools (poolsWithPrices ps) = [] →
          (calculateWeightedPrice (some ps) fbBA fbAB).weightedPrice
              = min (medianPriceOf (poolsWithPrices ps)) MAX_REASONABLE_PRICE
            ∧ (calculateWeightedPrice (some ps) fbBA fbAB).totalLiquidity
              = sumAda (poolsWithPrices ps)
            ∧ (calculateWeightedPrice (some ps) fbBA fbAB).filteredOutliers = true
            ∧ (calculateWeightedPrice (some ps) fbBA fbAB).medianUsed = true) := by
  intro ps fbBA fbAB hval
  have hps : ps ≠ [] := by
    intro h
    apply hval
    rw [h]
    rfl
  have h1 := not_isEmpty_of_ne_nil hps
  have h2 := not_isEmpty_of_ne_nil hval
  simp only [calculateWeightedPrice]
  rw [if_neg h1, if_neg h2]
  by_cases hre : reasonablePools (poolsWithPrices ps) = []
  · have h3 : (reasonablePools (poolsWithPrices ps)).isEmpty = true := by
      rw [hre]
      rfl
    rw [if_pos h3]
    refine ⟨?_, fun _ => ⟨rfl, rfl, rfl, rfl⟩⟩
    rw [h3]
    rfl
  · have h3 := not_isEmpty_of_ne_nil hre
    have h0 : ¬(sumAda (reasonablePools (poolsWithPrices ps)) = 0) :=
      ne_of_gt (sumAda_pos hre)
    rw [if_neg h3, if_neg h0]
    refine ⟨?_, fun h => absurd h hre⟩
    have h4 : (reasonablePools (poolsWithPrices ps)).isEmpty = false := by
      cases hc : reasonablePools (poolsWithPrices ps) with
      | nil => exact absurd hc hre
      | cons a l => rfl
    rw [h4]
    rfl

/-- C4 witness: `C4_median_fallback_amended` applied to a single valid pool
whose price 2000 lies above MAX_REASONABLE_PRICE, so range-filtering removes
every candidate and the capped median fallback is taken. -/
theorem C4_median_fallback_amended_witness :
    poolsWithPrices [⟨"dexA", 2000, 1⟩] ≠ []
    ∧ (((calculateWeightedPrice (some [⟨"dexA", 2000, 1⟩]) none none).medianUsed
          = ((reasonablePools (poolsWithPrices [⟨"dexA", 2000, 1⟩])).isEmpty
              || suspiciousOf (reasonablePools (poolsWithPrices [⟨"dexA", 2000, 1⟩]))
                  (sumAda (reasonablePools (poolsWithPrices [⟨"dexA", 2000, 1⟩])))))
      ∧ (reasonablePools (poolsWithPrices [⟨"dexA", 2000, 1⟩]) = [] →
          (calculateWeightedPrice (some [⟨"dexA", 2000, 1⟩]) none none).weightedPrice
              = min (medianPriceOf (poolsWithPrices [⟨"dexA", 2000, 1⟩])) MAX_REASONABLE_PRICE
            ∧ (calculateWeightedPrice (some [⟨"dexA", 2000, 1⟩]) none none).totalLiquidity
              = sumAda (poolsWithPrices [⟨"dexA", 2000, 1⟩])
            ∧ (calculateWeightedPrice (some [⟨"dexA", 2000, 1⟩]) none none).filteredOutliers = true
            ∧ (calculateWeightedPrice (some [⟨"dexA", 2000, 1⟩]) none none).medianUsed = true)) := by
  have hval : poolsWithPrices [⟨"dexA", 2000, 1⟩] ≠ [] := by
    norm_num [poolsWithPrices, mapPool]
  exact ⟨hval, C4_median_fallback_amended _ none none hval⟩

/-- C6 counterexample: with an empty pool response and a successful
token→ADA fallback price of 5, the returned assessment carries the fallback
price with poolCount 0, priceFromFallbackEndpoint and suspiciousConcentration
set — but `noPoolsFound` is false, because the fallback-success returns
(source lines 179–187 and 197–205) never set that property.  This refutes
the claim that the fallback-success assessment has noPoolsFound=true. -/
theorem C6_fallback_counterexample :
    (calculateWeightedPrice none (some 5) none).weightedPrice = 5
    ∧ (calculateWeightedPrice none (some 5) none).poolCount = 0
    ∧ (calculateWeightedPrice none (some 5) none).priceFromAveragePrice = true
    ∧ (calculateWeightedPrice none (some 5) none).suspiciousLiquidity = true
    ∧ (calculateWeightedPrice none (some 5) none).noPoolsFound = false :=
  ⟨rfl, rfl, rfl, rfl, rfl⟩

/-- C6 (amended): when the pool source returns an empty or malformed list,
a successful fallback lookup (token→ADA tried first, then ADA→token) yields
that price with poolCount 0, priceFromFallbackEndpoint=true and
suspiciousConcentration=true but with noPoolsFound left false; only when
both fallback lookups fail is the zero-price, noPoolsFound=true assessment
returned. -/
theorem C6_empty_pools_fallback_amended :
    ∀ (pools : Option (List RawPool)) (fbBA fbAB : Option ℚ),
      (pools = none ∨ pools = some []) →
      (calculateWeightedPrice pools fbBA fbAB).poolCount = 0
      ∧ (calculateWeightedPrice pools fbBA fbAB).originalPoolCount = 0
      ∧ (calculateWeightedPrice pools fbBA fbAB).totalLiquidity = 0
      ∧ (calculateWeightedPrice pools fbBA fbAB).weightedPrice = ((fbBA <|> fbAB).getD 0)
      ∧ (calculateWeightedPrice pools fbBA fbAB).priceFromAveragePrice
          = (fbBA.isSome || fbAB.isSome)
      ∧ (calculateWeightedPrice pools fbBA fbAB).suspiciousLiquidity = true
      ∧ (calculateWeightedPrice pools fbBA fbAB).noPoolsFound
          = (!(fbBA.isSome || fbAB.isSome))
      ∧ (calculateWeightedPrice pools fbBA fbAB).medianUsed = false
      ∧ (calculateWeightedPrice pools fbBA fbAB).emptySuspiciousPools = false := by
  intro pools fbBA fbAB hp
  rcases hp with h | h <;> subst h <;> cases fbBA <;> cases fbAB <;>
    simp [calculateWeightedPrice, emptyPoolsResult, Option.orElse]

/-- C6 witness: `C6_empty_pools_fallback_amended` applied to a missing pool
list with a successful token→ADA fallback price of 5. -/
theorem C6_empty_pools_fallback_amended_witness :
    ((none : Option (List RawPool)) = none ∨ (none : Option (List RawPool)) = some [])
    ∧ ((calculateWeightedPrice none (some 5) none).poolCount = 0
      ∧ (calculateWeightedPrice none (some 5) none).originalPoolCount = 0
      ∧ (calculateWeightedPrice none (some 5) none).totalLiquidity = 0
      ∧ (calculateWeightedPrice none (some 5) none).weightedPrice
          = (((some 5 : Option ℚ) <|> none).getD 0)
      ∧ (calculateWeightedPrice none (some 5) none).priceFromAveragePrice
          = ((some 5 : Option ℚ).isSome || (none : Option ℚ).isSome)
      ∧ (calculateWeightedPrice none (some 5) none).suspiciousLiquidity = true
      ∧ (calculateWeightedPrice none (some 5) none).noPoolsFound
          = (!((some 5 : Option ℚ).isSome || (none : Option ℚ).isSome))
      ∧ (calculateWeightedPrice none (some 5) none).medianUsed = false
      ∧ (calculateWeightedPrice none (some 5) none).emptySuspiciousPools = false) :=
  ⟨Or.inl rfl, C6_empty_pools_fallback_amended none (some 5) none (Or.inl rfl)⟩

/-- C7 counterexample: one raw pool with a zero token side (so every pool is
discarded as invalid), the token→ADA fallback fails and the ADA→token
fallback would return 7 — yet the resolver returns the zero-price
emptySuspiciousPools assessment without consulting the reverse direction
(source lines 256–291 only request `averagePrice/token/ADA`).  This refutes
the claim that this branch attempts both quote directions. -/
theorem C7_invalid_pools_counterexample :
    poolsWithPrices [⟨"dexA", 100, 0⟩] = []
    ∧ (calculateWeightedPrice (some [⟨"dexA", 100, 0⟩]) none (some 7)).weightedPrice = 0
    ∧ (calculateWeightedPrice (some [⟨"dexA", 100, 0⟩]) none (some 7)).priceFromAveragePrice
        = false
    ∧ (calculateWeightedPrice (some [⟨"dexA", 100, 0⟩]) none (some 7)).emptySuspiciousPools
        = true
    ∧ (calculateWeightedPrice (some [⟨"dexA", 100, 0⟩]) none (some 7)).suspiciousLiquidity
        = true := by
  refine ⟨?_, ?_, ?_, ?_, ?_⟩ <;>
    norm_num [calculateWeightedPrice, poolsWithPrices, mapPool]

/-- C7 (amended): when the source returns a non-empty list but every pool is
discarded as invalid, the resolver consults only the token→ADA fallback
direction, flagging emptySuspiciousPools=true and suspiciousConcentration=true
either way; the ADA→token fallback plays no role in this branch, and absent
the token→ADA price the result is the zero-price assessment. -/
theorem C7_invalid_pools_fallback_amended :
    ∀ (ps : List RawPool) (fbBA fbAB : Option ℚ),
      ps ≠ [] →
      poolsWithPrices ps = [] →
      (calculateWeightedPrice (some ps) fbBA fbAB).poolCount = 0
      ∧ (calculateWeightedPrice (some ps) fbBA fbAB).totalLiquidity = 0
      ∧ (calculateWeightedPrice (some ps) fbBA fbAB).originalPoolCount = ps.length
      ∧ (calculateWeightedPrice (some ps) fbBA fbAB).emptySuspiciousPools = true
      ∧ (calculateWeightedPrice (some ps) fbBA fbAB).suspiciousLiquidity = true
      ∧ (calculateWeightedPrice (some ps) fbBA fbAB).weightedPrice = fbBA.getD 0
      ∧ (calculateWeightedPrice (some ps) fbBA fbAB).priceFromAveragePrice = fbBA.isSome
      ∧ (calculateWeightedPrice (some ps) fbBA fbAB).noPoolsFound = false
      ∧ (calculateWeightedPrice (some ps) fbBA fbAB).medianUsed = false := by
  intro ps fbBA fbAB hps hval
  have h1 := not_isEmpty_of_ne_nil hps
  have h2 : (poolsWithPrices ps).isEmpty = true := by
    rw [hval]
    rfl
  simp only [calculateWeightedPrice]
  rw [if_neg h1, if_pos h2]
  cases fbBA <;> simp

/-- C7 witness: `C7_invalid_pools_fallback_amended` applied to a single
invalid pool with a successful token→ADA fallback price of 3. -/
theorem C7_invalid_pools_fallback_amended_witness :
    ([⟨"dexA", 100, 0⟩] : List RawPool) ≠ []
    ∧ poolsWithPrices [⟨"dexA", 100, 0⟩] = []
    ∧ ((calculateWeightedPrice (some [⟨"dexA", 100, 0⟩]) (some 3) none).poolCount = 0
      ∧ (calculateWeightedPrice (some [⟨"dexA", 100, 0⟩]) (some 3) none).totalLiquidity = 0
      ∧ (calculateWeightedPrice (some [⟨"dexA", 100, 0⟩]) (some 3) none).originalPoolCount
          = ([⟨"dexA", 100, 0⟩] : List RawPool).length
      ∧ (calculateWeightedPrice (some [⟨"dexA", 100, 0⟩]) (some 3) none).emptySuspiciousPools
          = true
      ∧ (calculateWeightedPrice (some [⟨"dexA", 100, 0⟩]) (some 3) none).suspiciousLiquidity
          = true
      ∧ (calculateWeightedPrice (some [⟨"dexA", 100, 0⟩]) (some 3) none).weightedPrice
          = (some (3 : ℚ)).getD 0
      ∧ (calculateWeightedPrice (some [⟨"dexA", 100, 0⟩]) (some 3) none).priceFromAveragePrice
          = (some (3 : ℚ)).isSome
      ∧ (calculateWeightedPrice (some [⟨"dexA", 100, 0⟩]) (some 3) none).noPoolsFound = false
      ∧ (calculateWeightedPrice (some [⟨"dexA", 100, 0⟩]) (some 3) none).medianUsed = false) := by
  have hps : ([⟨"dexA", 100, 0⟩] : List RawPool) ≠ [] := by simp
  have hval : poolsWithPrices [⟨"dexA", 100, 0⟩] = [] := by
    norm_num [poolsWithPrices, mapPool]
  exact ⟨hps, hval, C7_invalid_pools_fallback_amended _ (some 3) none hps hval⟩

/-- C5: for every Trust Scorer input every recorded penalty has strictly
negative points, every recorded bonus strictly positive points, and the final
score equals max(0, 100 + the sum of all recorded penalty points + the sum of
all recorded bonus points): each applied adjustment is recorded in the audit
trail with its exact signed delta. -/
theorem C5_audit_trail_exact
    (tokenId : String) (poolCount : ℕ) (susp : Bool) (liq mcap circ : ℚ)
    (ticker : Option String) (age : ℚ) (pFA : Bool) :
    ((calculateTrustScore tokenId poolCount susp liq mcap circ ticker age pFA).penalties.all
        fun a => decide (a.points < 0)) = true
    ∧ ((calculateTrustScore tokenId poolCount susp liq mcap circ ticker age pFA).bonuses.all
        fun a => decide (0 < a.points)) = true
    ∧ (calculateTrustScore tokenId poolCount susp liq mcap circ ticker age pFA).score
      = max 0 (100
          + sumPoints (calculateTrustScore tokenId poolCount susp liq mcap circ ticker age pFA).penalties
          + sumPoints (calculateTrustScore tokenId poolCount susp liq mcap circ ticker age pFA).bonuses) := by
  obtain ⟨h1, h2, h3⟩ := auditOk_scoreRules tokenId poolCount susp liq mcap circ ticker age pFA
  refine ⟨h1, h2, ?_⟩
  rw [show (calculateTrustScore tokenId poolCount susp liq mcap circ ticker
    age pFA).score = max 0 (scoreRules tokenId poolCount susp liq mcap circ ticker age
    pFA).score from rfl, h3]
  rfl

/-- C8: the liquidity tiers are mutually exclusive and evaluated top-down:
`liquidityStep` equals the first-match four-way chain (the `−30` branch at
`< MIN_LIQUIDITY_THRESHOLD = 500` is unreachable behind `< 500`), so at most
one tier adjustment is applied; consequently liquidity in [500, 20000]
records no tier adjustment and liquidity in [100, 500) records exactly the
−50 penalty. -/
theorem C8_liquidity_tiers_first_match :
    (∀ (liq : ℚ) (s : ScoreState),
        liquidityStep liq s =
          (if liq < 100 then addPenalty s .extremelyLowLiquidity (-70)
           else if liq < 500 then addPenalty s .veryLowLiquidity (-50)
           else if liq > 100000 then addBonus s .veryHighLiquidity 20
           else if liq > 20000 then addBonus s .goodLiquidity 10
           else s))
    ∧ (∀ (liq : ℚ) (s : ScoreState), 500 ≤ liq → liq ≤ 20000 →
        liquidityStep liq s = s)
    ∧ (∀ (liq : ℚ) (s : ScoreState), 100 ≤ liq → liq < 500 →
        liquidityStep liq s = addPenalty s .veryLowLiquidity (-50)) := by
  refine ⟨?_, ?_, ?_⟩
  · intro liq s
    unfold liquidityStep MIN_LIQUIDITY_THRESHOLD
    split_ifs <;> first | rfl | linarith
  · intro liq s h1 h2
    unfold liquidityStep MIN_LIQUIDITY_THRESHOLD
    split_ifs <;> first | rfl | linarith
  · intro liq s h1 h2
    unfold liquidityStep
    split_ifs <;> first | rfl | linarith

/-- C8 witness: the ∀-parts of `C8_liquidity_tiers_first_match` applied at
liquidity 700 (no tier adjustment) and 300 (the −50 tier penalty). -/
theorem C8_liquidity_tiers_first_match_witness :
    ((500 : ℚ) ≤ 700 ∧ (700 : ℚ) ≤ 20000
      ∧ liquidityStep 700 ⟨100, [], []⟩ = ⟨100, [], []⟩)
    ∧ ((100 : ℚ) ≤ 300 ∧ (300 : ℚ) < 500
      ∧ liquidityStep 300 ⟨100, [], []⟩
        = addPenalty ⟨100, [], []⟩ .veryLowLiquidity (-50)) :=
  ⟨⟨by norm_num, by norm_num,
      C8_liquidity_tiers_first_match.2.1 700 ⟨100, [], []⟩ (by norm_num) (by norm_num)⟩,
   ⟨by norm_num, by norm_num,
      C8_liquidity_tiers_first_match.2.2 300 ⟨100, [], []⟩ (by norm_num) (by norm_num)⟩⟩

/-- C10: in the fallback branch (`priceFromAveragePrice = true`) the
pool-count assessment is a no-op whenever `poolCount > 0` — none of the
fallback penalties (−40, −20), the wrapped-token bonus (+30), or the
non-fallback rules can fire — and regardless of `poolCount` the fallback
branch never records the `goodPoolCount` (+10) bonus. -/
theorem C10_fallback_no_pool_count_adjustment :
    (∀ (poolCount : ℕ) (mcap circ liq : ℚ) (ticker : Option String) (s : ScoreState),
        0 < poolCount →
        poolCountStep true poolCount mcap circ liq ticker s = s)
    ∧ (∀ (poolCount : ℕ) (mcap circ liq : ℚ) (ticker : Option String) (s : ScoreState),
        ((poolCountStep true poolCount mcap circ liq ticker s).bonuses.filter
            fun b => b.reason == Reason.goodPoolCount)
          = s.bonuses.filter fun b => b.reason == Reason.goodPoolCount) := by
  have hzero : ∀ (poolCount : ℕ), 0 < poolCount → ¬(poolCount = 0) := by omega
  refine ⟨?_, ?_⟩
  · intro poolCount mcap circ liq ticker s hpc
    unfold poolCountStep
    rw [if_pos rfl, if_neg (hzero poolCount hpc)]
  · intro poolCount mcap circ liq ticker s
    unfold poolCountStep
    rw [if_pos rfl]
    split_ifs <;> simp [addPenalty, addBonus, List.filter_append]

/-- C10 witness: the first part of `C10_fallback_no_pool_count_adjustment`
applied at poolCount 1. -/
theorem C10_fallback_no_pool_count_adjustment_witness :
    0 < 1
    ∧ poolCountStep true 1 5000000 0 100 (some "SNEK") ⟨100, [], []⟩ = ⟨100, [], []⟩ :=
  ⟨by norm_num,
   C10_fallback_no_pool_count_adjustment.1 1 5000000 0 100 (some "SNEK") ⟨100, [], []⟩
     (by norm_num)⟩

/-- C9: the report's ranked list contains exactly the tokens with positive
market cap and a trust score at or above the moderate threshold (it is a
permutation of that filter of the input), and it is sorted by market cap
descending. -/
theorem C9_ranked_list (tokens : List ReportToken) :
    (generateMarketCapReport tokens).topTokensByMarketCapValid.Perm
        (validMarketCapTokens tokens)
    ∧ (generateMarketCapReport tokens).topTokensByMarketCapValid.Pairwise
        (fun a b => b.marketCap ≤ a.marketCap)
    ∧ validMarketCapTokens tokens
        = tokens.filter (fun t =>
            decide (t.marketCap > 0) &&
              (match t.trustAssessment with
               | some a => decide (a.score ≥ MODERATE_TRUST_THRESHOLD)
               | none => false)) := by
  refine ⟨List.mergeSort_perm _ _, ?_, rfl⟩
  have h := @List.sorted_mergeSort ReportToken
    (fun a b => decide (b.marketCap ≤ a.marketCap))
    (fun a b c hab hbc => by
      simp only [decide_eq_true_eq] at hab hbc ⊢
      exact le_trans hbc hab)
    (fun a b => by
      simp only [Bool.or_eq_true, decide_eq_true_eq]
      exact le_total b.marketCap a.marketCap)
    (validMarketCapTokens tokens)
  exact h.imp fun hab => of_decide_eq_true hab

/-- C1: the spec requires a "low trust score — exercise caution" reason
whenever the assessment is not a honeypot and its score is below 40 and no
invalidating rule fires; the code cannot record it on the real pipeline,
because `validateMarketCap` reads `trustAssessment.trustScore` (source lines
744 and 790) while the Trust Scorer's output carries the field `score`, so
the comparison sees `undefined`.  At marketCap 100000, totalLiquidity 10000
and a scorer-produced assessment with score 35 (not a honeypot), validation
returns valid=true with an empty reasons list — the caution string is
missing. -/
theorem C1_caution_reason_never_recorded :
    (calculateTrustScore "pipelinetoken" 0 true 10000 100000 1000000
        (some "SNEK") 31 true).score = 35
    ∧ (calculateTrustScore "pipelinetoken" 0 true 10000 100000 1000000
        (some "SNEK") 31 true).isHoneypot = false
    ∧ (validateMarketCap 100000 10000
        (enhanceAssessment
          (calculateTrustScore "pipelinetoken" 0 true 10000 100000 1000000
            (some "SNEK") 31 true)
          false false false false 1000000)).valid = true
    ∧ (validateMarketCap 100000 10000
        (enhanceAssessment
          (calculateTrustScore "pipelinetoken" 0 true 10000 100000 1000000
            (some "SNEK") 31 true)
          false false false false 1000000)).reasons = []
    ∧ VReason.lowTrustCaution ∉
        (validateMarketCap 100000 10000
          (enhanceAssessment
            (calculateTrustScore "pipelinetoken" 0 true 10000 100000 1000000
              (some "SNEK") 31 true)
            false false false false 1000000)).reasons := by
  have hw : "pipelinetoken" ∉ TRUSTED_TOKENS := by decide
  have hb : "pipelinetoken" ∉ HONEYPOT_BLACKLIST := by decide
  have ht : tickerTruthy (some "SNEK") = true := by decide
  have hc : copycatMatch "SNEK" = true := by decide
  have hwr : wrappedTokenMatch "SNEK" = false := by decide
  refine ⟨?_, ?_, ?_, ?_, ?_⟩ <;>
    norm_num [validateMarketCap, enhanceAssessment, calculateTrustScore, scoreRules,
      whitelistStep, blacklistStep, copycatStep, supplyDiscrepancyStep, manipulationStep,
      poolCountStep, liquidityStep, concentrationStep, ratioCapStep, ageStep,
      addPenalty, addBonus, Option.getD, MIN_LIQUIDITY_THRESHOLD, maxMcapLiquidityRatio,
      MIN_POOLS_REQUIRED, hw, hb, ht, hc, hwr]

end CallersTokenApi
